import Mathlib

/-!
Verification of the unity-roster-bot pipeline.

The repository ships one named entry point, `src/index.js`, together with
four unnamed revisions of the same bot.  The definitions below are a shallow
embedding of the functions the claims talk about:

* namespace `Index`   — `src/index.js` (the current program);
* namespace `Part002` — `src/unnamed/part_002` ("FIXED: Robust counting");
* namespace `Part003` — `src/unnamed/part_003` ("FIXED for both templates").

JavaScript strings that may be absent (`undefined`) are modelled as
`Option String`; the JS coercion `String(x || d)` is `jsOr`, and
`x || y` on two possibly-absent strings is `jsOrOpt` (the empty string is
falsy in JS).
-/

set_option maxRecDepth 4096

/-- `String(x || d)` for a possibly-absent string `x`: absent and `""` are falsy. -/
def jsOr (a : Option String) (d : String) : String :=
  match a with
  | none => d
  | some s => if s == "" then d else s

/-- `x || y` on two possibly-absent strings, as used in `s.roleName || s.className`. -/
def jsOrOpt (a b : Option String) : Option String :=
  match a with
  | none => b
  | some s => if s == "" then b else some s

/-- JS `toLowerCase()`, computed characterwise so the kernel can evaluate it. -/
def strToLower (s : String) : String :=
  ⟨s.data.map Char.toLower⟩

/-- JS `toUpperCase()`, computed characterwise so the kernel can evaluate it. -/
def strToUpper (s : String) : String :=
  ⟨s.data.map Char.toUpper⟩

/-- JS `trim()`: drop leading and trailing whitespace. -/
def strTrim (s : String) : String :=
  ⟨((s.data.dropWhile Char.isWhitespace).reverse.dropWhile Char.isWhitespace).reverse⟩

/-- `normalize` as defined identically in part_002 and part_003:
`String(str || "").trim().toLowerCase()`. -/
def normalizeField (a : Option String) : String :=
  strToLower (strTrim (jsOr a ""))

/-- Substring test on char lists (JS `String.prototype.includes`). -/
def listIncludes (p : List Char) : List Char → Bool
  | [] => p.isEmpty
  | c :: rest => p.isPrefixOf (c :: rest) || listIncludes p rest

/-- JS `s.includes(pat)`. -/
def strIncludes (s pat : String) : Bool :=
  listIncludes pat.data s.data

/-- One raw signup entry of the Raid-Helper event JSON (`s` in `countRoles`). -/
structure SignUp where
  roleName : Option String
  className : Option String
  status : Option String
  specName : Option String
deriving DecidableEq

/-- The event JSON: `startTime` plus `signUps` (checked with `Array.isArray`). -/
structure EventJson where
  startTime : Int
  signUps : Option (List SignUp)
deriving DecidableEq

/-- Canonical role counts produced by every `countRoles` revision. -/
structure Counts where
  tanks : Nat
  healers : Nat
  melee : Nat
  ranged : Nat
  mh : Nat
  rh : Nat
deriving DecidableEq

/-- Event JSON wrapper used for concrete test inputs. -/
def mkEv (l : List SignUp) : EventJson :=
  ⟨0, some l⟩

/-- `CONFIG.meleeHealerSpecs` of `src/index.js`. -/
def CONFIG_meleeHealerSpecs : List String :=
  ["Mistweaver", "Holy", "Holy1"]

namespace Index

/-- `ignoreClass` set of `countRoles` in `src/index.js` (verbatim strings). -/
def ignoreClassSet : List String :=
  ["Late", "Bench", "Tentative", "Absence"]

/-- The `signUps.filter` predicate of `countRoles` in `src/index.js`. -/
def keepsSignUp (s : SignUp) : Bool :=
  let cn := jsOr s.className ""
  let st := strToLower (jsOr s.status "primary")
  !(ignoreClassSet.contains cn) && st == "primary"

/-- Body of the `for (const s of primaries)` loop of `countRoles` in `src/index.js`. -/
def countStep (meleeHealerSpecs : List String) (c : Counts) (s : SignUp) : Counts :=
  let role := jsOr s.roleName ""
  if role == "Tanks" then { c with tanks := c.tanks + 1 }
  else if role == "Healers" then
    let spec := jsOr s.specName ""
    if meleeHealerSpecs.contains spec then
      { c with healers := c.healers + 1, mh := c.mh + 1 }
    else
      { c with healers := c.healers + 1, rh := c.rh + 1 }
  else if role == "Melee" then { c with melee := c.melee + 1 }
  else if role == "Ranged" then { c with ranged := c.ranged + 1 }
  else c

/-- `countRoles` of `src/index.js`. -/
def countRoles (meleeHealerSpecs : List String) (ev : EventJson) : Counts :=
  let signUps := ev.signUps.getD []
  let primaries := signUps.filter keepsSignUp
  primaries.foldl (countStep meleeHealerSpecs) ⟨0, 0, 0, 0, 0, 0⟩

end Index

namespace Part002

/-- Excluded statuses of `isIncludedStatus` in `src/unnamed/part_002`. -/
def excludedStatuses : List String :=
  ["bench", "benched", "late", "tentative", "absence", "absent",
   "declined", "cancelled", "canceled"]

/-- `isIncludedStatus` of `src/unnamed/part_002`. -/
def isIncludedStatus (statusRaw : Option String) : Bool :=
  let s := normalizeField statusRaw
  if s == "" then true
  else if excludedStatuses.contains s then false
  else true

/-- `isIgnoredBucket` of `src/unnamed/part_002`. -/
def isIgnoredBucket (classNameRaw : Option String) : Bool :=
  let cn := normalizeField classNameRaw
  (["late", "bench", "tentative", "absence"] : List String).contains cn

/-- Body of the signups loop of `countRoles` in `src/unnamed/part_002`. -/
def countStep (meleeHealerSpecs : List String) (c : Counts) (s : SignUp) : Counts :=
  if isIgnoredBucket s.className then c
  else if !isIncludedStatus s.status then c
  else
    let role := normalizeField s.roleName
    if strIncludes role "tank" then { c with tanks := c.tanks + 1 }
    else if strIncludes role "heal" then
      let spec := jsOr s.specName ""
      if meleeHealerSpecs.contains spec then
        { c with healers := c.healers + 1, mh := c.mh + 1 }
      else
        { c with healers := c.healers + 1, rh := c.rh + 1 }
    else if strIncludes role "ranged" || strIncludes role "rdps" ||
        strIncludes role "range dps" || role == "r" then
      { c with ranged := c.ranged + 1 }
    else if strIncludes role "melee" || strIncludes role "mdps" ||
        strIncludes role "melee dps" || role == "m" then
      { c with melee := c.melee + 1 }
    else if role == "dps" || strIncludes role "damage" || strIncludes role "dd" then
      { c with ranged := c.ranged + 1 }
    else c

/-- `countRoles` of `src/unnamed/part_002` (the debug histogram does not affect counts). -/
def countRoles (meleeHealerSpecs : List String) (ev : EventJson) : Counts :=
  (ev.signUps.getD []).foldl (countStep meleeHealerSpecs) ⟨0, 0, 0, 0, 0, 0⟩

end Part002

namespace Part003

/-- `ignoreClass` set of `countRoles` in `src/unnamed/part_003` (lower case). -/
def ignoreClassSet : List String :=
  ["late", "bench", "tentative", "absence"]

/-- Body of the signups loop of `countRoles` in `src/unnamed/part_003`. -/
def countStep (meleeHealerSpecs : List String) (c : Counts) (s : SignUp) : Counts :=
  let className := normalizeField s.className
  if ignoreClassSet.contains className then c
  else
    let status := normalizeField s.status
    if status != "" && status != "primary" then c
    else
      let bucket := normalizeField (jsOrOpt s.roleName s.className)
      if strIncludes bucket "tank" then { c with tanks := c.tanks + 1 }
      else if strIncludes bucket "heal" then
        let spec := jsOr s.specName ""
        if meleeHealerSpecs.contains spec then
          { c with healers := c.healers + 1, mh := c.mh + 1 }
        else
          { c with healers := c.healers + 1, rh := c.rh + 1 }
      else if strIncludes bucket "melee" then { c with melee := c.melee + 1 }
      else if strIncludes bucket "ranged" then { c with ranged := c.ranged + 1 }
      else if bucket == "dps" || strIncludes bucket "damage" then
        { c with ranged := c.ranged + 1 }
      else c

/-- `countRoles` of `src/unnamed/part_003` (the bucket histogram does not affect counts). -/
def countRoles (meleeHealerSpecs : List String) (ev : EventJson) : Counts :=
  (ev.signUps.getD []).foldl (countStep meleeHealerSpecs) ⟨0, 0, 0, 0, 0, 0⟩

end Part003

/-! ## Event link extraction (`src/index.js`, lines 96–141) -/

/-- The literal part of the pattern `/raid-helper\.dev\/event\/(\d{10,30})/i`. -/
def eventLitChars : List Char :=
  "raid-helper.dev/event/".data

/-- One attempt of the regex at a fixed start position: the literal must match
case-insensitively and must be followed by at least 10 digits; the capture is
the first at most 30 digits of the run (the `{10,30}` greedy bound). -/
def eventIdAt (cs : List Char) : Option String :=
  if (cs.take eventLitChars.length).map Char.toLower == eventLitChars then
    let ds := ((cs.drop eventLitChars.length).takeWhile Char.isDigit).take 30
    if 10 ≤ ds.length then some ⟨ds⟩ else none
  else none

/-- The regex search of `String(text).match(...)`: first position where the
whole pattern matches wins. -/
def findEventId : List Char → Option String
  | [] => none
  | c :: rest =>
    match eventIdAt (c :: rest) with
    | some id => some id
    | none => findEventId rest

/-- `extractEventIdFromText` of `src/index.js` (`!text` is falsy for absent or empty). -/
def extractEventIdFromText (text : Option String) : Option String :=
  match text with
  | none => none
  | some t => if t == "" then none else findEventId t.data

/-- A name/value field of a Discord embed. -/
structure EmbedField where
  name : Option String
  value : Option String
deriving DecidableEq

/-- The author part of a Discord embed (`emb.author?.url`). -/
structure EmbedAuthor where
  url : Option String
deriving DecidableEq

/-- The footer part of a Discord embed (`emb.footer?.text`). -/
structure EmbedFooter where
  text : Option String
deriving DecidableEq

/-- A Discord rich embed, with exactly the parts `extractEventIdFromMessage` inspects. -/
structure Embed where
  url : Option String
  title : Option String
  description : Option String
  fields : Option (List EmbedField)
  author : Option EmbedAuthor
  footer : Option EmbedFooter
deriving DecidableEq

/-- An interactive component carrying a link URL. -/
structure MessageComponent where
  url : Option String
deriving DecidableEq

/-- A row of interactive components (`row.components ?? []`). -/
structure ComponentRow where
  components : Option (List MessageComponent)
deriving DecidableEq

/-- A Discord message as far as the bot reads it. -/
structure Message where
  id : String
  content : Option String
  embeds : Option (List Embed)
  components : Option (List ComponentRow)
deriving DecidableEq

/-- The per-embed-field part of `extractEventIdFromMessage`. -/
def extractFromField (f : EmbedField) : Option String :=
  extractEventIdFromText f.name <|> extractEventIdFromText f.value

/-- The per-embed part of `extractEventIdFromMessage`, in source order:
url, title, description, fields, author url, footer text. -/
def extractFromEmbed (e : Embed) : Option String :=
  extractEventIdFromText e.url <|>
  extractEventIdFromText e.title <|>
  extractEventIdFromText e.description <|>
  (e.fields.getD []).findSome? extractFromField <|>
  extractEventIdFromText (e.author.bind EmbedAuthor.url) <|>
  extractEventIdFromText (e.footer.bind EmbedFooter.text)

/-- `extractEventIdFromMessage` of `src/index.js`: content, then embeds, then
component links, first non-null wins. -/
def extractEventIdFromMessage (m : Message) : Option String :=
  extractEventIdFromText m.content <|>
  (m.embeds.getD []).findSome? extractFromEmbed <|>
  (m.components.getD []).findSome? (fun row =>
    (row.components.getD []).findSome? (fun c => extractEventIdFromText c.url))

/-- Spec-side characterization of when the regex can succeed somewhere in the
text: some position starts (case-insensitively) with
`raid-helper.dev/event/` followed by a digit run of length at least 10. -/
def specContainsEventRef : List Char → Bool
  | [] => false
  | c :: rest =>
    (((c :: rest).take eventLitChars.length).map Char.toLower == eventLitChars &&
      decide (10 ≤ (((c :: rest).drop eventLitChars.length).takeWhile Char.isDigit).length)) ||
    specContainsEventRef rest

/-- Spec-side well-formedness of a returned event id: 10 to 30 characters, all digits. -/
def eventIdWellFormed : Option String → Bool
  | none => true
  | some id => decide (10 ≤ id.length) && decide (id.length ≤ 30) && id.data.all Char.isDigit

/-! ## Bounded backward pagination (`src/index.js`, lines 144–177) -/

/-- `CONFIG.LOOKBACK_TOTAL` of `src/index.js`. -/
def LOOKBACK_TOTAL : Nat := 50

/-- The `while (all.length < total)` loop of `fetchRecentMessages`, instrumented
with the number of page fetches issued.  `fetchPage limit before` is the
message-history read capability `textChannel.messages.fetch({limit, before})`. -/
def fetchRecentMessagesGo (fetchPage : Nat → Option String → List Message)
    (total : Nat) (acc : List Message) (beforeId : Option String) :
    List Message × Nat :=
  if h : acc.length < total then
    let limit := min 100 (total - acc.length)
    let batch := fetchPage limit beforeId
    if hb : batch = [] then (acc, 1)
    else if hs : batch.length < limit then (acc ++ batch, 1)
    else
      let next := fetchRecentMessagesGo fetchPage total (acc ++ batch)
        ((batch.getLast?).map Message.id)
      (next.1, next.2 + 1)
  else (acc, 0)
termination_by total - acc.length
decreasing_by
  unfold batch at hs
  unfold limit at hs
  simp only [List.length_append]
  omega

/-- `fetchRecentMessages` of `src/index.js`, returning the accumulated messages
together with the number of page fetches issued. -/
def fetchRecentMessages (fetchPage : Nat → Option String → List Message)
    (totalDesired : Nat) : List Message × Nat :=
  fetchRecentMessagesGo fetchPage totalDesired [] none

/-- `findLatestRaidHelperEventId` of `src/index.js`: scan the fetched window
newest-to-oldest and return the first extracted event id. -/
def findLatestRaidHelperEventId (fetchPage : Nat → Option String → List Message) :
    Option String :=
  ((fetchRecentMessages fetchPage LOOKBACK_TOTAL).1).findSome? extractEventIdFromMessage

/-! ## Rendering (`src/index.js`, lines 217–354)

`new Date()` and the two locale formatters are environment capabilities, so
the renderers take the formatted week string and a start-time formatter as
explicit oracle arguments; everything else follows the source line by line. -/

/-- A per-team summary as pushed by `buildTeamSummaries` (`raidSize` is
`team.raidSize ?? 20`, already resolved). -/
structure TeamSummary where
  teamName : String
  startTime : Int
  counts : Counts
  raidSize : Int
deriving DecidableEq

/-- One `CONFIG.teams` entry of `src/index.js`. -/
structure Team where
  key : String
  name : String
  signupChannelId : String
  raidSize : Int
deriving DecidableEq

/-- One `CONFIG.recruitmentCards` entry of `src/index.js`. -/
structure Card where
  headerEmoji : String
  time : String
  leader : String
  notes : String
deriving DecidableEq

/-- `CONFIG.targets` of `src/index.js`. -/
structure Targets where
  tanks : Int
  healers : Int
deriving DecidableEq

/-- `CONFIG.targets` value. -/
def CONFIG_targets : Targets := ⟨2, 4⟩

/-- `CONFIG.teams` of `src/index.js`. -/
def CONFIG_teams : List Team :=
  [⟨"WEEKEND", "WEEKEND WARRIORS", "1338703521138081902", 20⟩,
   ⟨"SOLO", "SOLONOMO", "1071192840408940626", 20⟩,
   ⟨"EARLY", "EARLY BIRD", "1216844831767396544", 20⟩,
   ⟨"CRIT", "CRIT HAPPENS", "1248666830810251354", 20⟩]

/-- `CONFIG.recruitmentCards` of `src/index.js`. -/
def CONFIG_recruitmentCards : List (String × Card) :=
  [("WEEKEND", ⟨":shield:", "Thursday & Sunday Evenings", "@snick_", ""⟩),
   ("SOLO", ⟨":crossed_swords:", "Friday Evening", "@vikinghammers", ""⟩),
   ("EARLY", ⟨":sunrise:", "Tuesday & Thursday", "@johnnynobeard", ""⟩),
   ("CRIT", ⟨":fire:", "Friday & Sunday (Late Evening)", "@frostynips", "Melee DPS: Monk please"⟩),
   ("DEBUFF", ⟨":Hype:", "Saturdays", "@jmetzger87", ""⟩)]

/-- Object-key lookup `CONFIG.recruitmentCards[team.key]`. -/
def lookupCard (k : String) : Option Card :=
  (CONFIG_recruitmentCards.find? (fun p => p.1 == k)).map (fun p => p.2)

/-- `needCount` of `src/index.js`: `Math.max(0, target - have)`. -/
def needCount (hav target : Int) : Int :=
  max 0 (target - hav)

/-- `roleBadge` of `src/index.js`. -/
def roleBadge (need : Int) : String :=
  if need == 0 then ":white_check_mark:" else toString need

/-- `dpsBadges` of `src/index.js`, returned as `(ranged, melee)`. -/
def dpsBadges (dpsNeedTotal : Int) : String × String :=
  if dpsNeedTotal ≤ 0 then (":heart:", ":heart:")
  else if dpsNeedTotal == 1 then ("1", "1")
  else if dpsNeedTotal == 2 then ("1-2", "1-2")
  else ("3+", "3+")

/-- The `dpsTarget` line repeated in both renderers:
`Math.max(0, raidSize - (tanksTarget + healsTarget))`. -/
def dpsTargetCalc (raidSize tanksTarget healsTarget : Int) : Int :=
  max 0 (raidSize - (tanksTarget + healsTarget))

/-- `needLine` of `src/index.js`. -/
def needLine (label : String) (hav target : Int) : String :=
  let need := max 0 (target - hav)
  if need == 0 then
    label ++ ": FULL (" ++ toString hav ++ "/" ++ toString target ++ ")"
  else
    label ++ ": NEED " ++ toString need ++ " (" ++ toString hav ++ "/" ++ toString target ++ ")"

/-- `renderDashboardAnsi` of `src/index.js`; `weekOf` and `fmtWhen` stand for
the two locale formatting calls on the current clock. -/
def renderDashboardAnsi (weekOf : String) (fmtWhen : Int → String)
    (teamSummaries : List TeamSummary) : String :=
  let header := ["UNITY RAID OVERSIGHT — Week of " ++ weekOf, ""]
  if teamSummaries.isEmpty then
    "```ansi\n" ++
      String.intercalate "\n"
        (header ++ ["No upcoming Raid-Helper events found in signup channels."]) ++
      "\n```"
  else
    let body := teamSummaries.foldl (fun (ls : List String) s =>
      let whenStr := fmtWhen s.startTime
      let tanksTarget := CONFIG_targets.tanks
      let healsTarget := CONFIG_targets.healers
      let dpsTarget := dpsTargetCalc s.raidSize tanksTarget healsTarget
      let dpsHave := (s.counts.melee : Int) + (s.counts.ranged : Int)
      ls ++
        [s.teamName ++ " (" ++ whenStr ++ ")",
         needLine "Tank" (s.counts.tanks : Int) tanksTarget,
         needLine "Heals" (s.counts.healers : Int) healsTarget ++
           "  [Melee " ++ toString s.counts.mh ++ " | Ranged " ++ toString s.counts.rh ++ "]",
         needLine "DPS" dpsHave dpsTarget ++
           "  [Melee " ++ toString s.counts.melee ++ " | Ranged " ++ toString s.counts.ranged ++ "]",
         ""]) []
    "```ansi\n" ++ String.intercalate "\n" (header ++ body) ++ "\n```"

/-- `renderRecruitmentPost` of `src/index.js`.  The `byName` map lookup is a
search by upper-cased team name (team names in `CONFIG.teams` are distinct). -/
def renderRecruitmentPost (teamSummaries : List TeamSummary) : String :=
  let base :=
    [":clipboard: **Recruitment Key**",
     "- The number shown next to each role = how many positions are needed.",
     "- :white_check_mark: = All positions for that role are filled.",
     "- 1 (or other number) = That many spots are open.",
     "- :heart: = All are welcome for that role (no cap).",
     "", ""]
  let blocks := CONFIG_teams.foldl (fun (ls : List String) team =>
    match lookupCard team.key with
    | none => ls
    | some card =>
      match teamSummaries.find? (fun s => strToUpper s.teamName == strToUpper team.name) with
      | none =>
        ls ++
          ["**" ++ card.headerEmoji ++ " " ++ team.name ++ "**",
           ":alarm_clock: " ++ card.time,
           "Raid Leader: " ++ card.leader,
           "- :shield: Tank:  :grey_question:",
           "- :sparkles: Healer:  :grey_question:",
           "- :dart: Ranged DPS:  :grey_question:",
           "- :crossed_swords: Melee DPS:  :grey_question:",
           "", "---", ""]
      | some summary =>
        let tanksTarget := CONFIG_targets.tanks
        let healsTarget := CONFIG_targets.healers
        let dpsTarget := dpsTargetCalc team.raidSize tanksTarget healsTarget
        let tankNeed := needCount (summary.counts.tanks : Int) tanksTarget
        let healNeed := needCount (summary.counts.healers : Int) healsTarget
        let dpsHave := (summary.counts.melee : Int) + (summary.counts.ranged : Int)
        let dpsNeed := needCount dpsHave dpsTarget
        let dps := dpsBadges dpsNeed
        let main :=
          ls ++
            ["**" ++ card.headerEmoji ++ " " ++ team.name ++ "**",
             ":alarm_clock: " ++ card.time,
             "Raid Leader: " ++ card.leader,
             "- :shield: Tank:  " ++ roleBadge tankNeed,
             "- :sparkles: Healer:  " ++ roleBadge healNeed,
             "- :dart: Ranged DPS:  " ++ dps.1,
             "- :crossed_swords: Melee DPS:  " ++ dps.2]
        let withNotes :=
          if strTrim card.notes == "" then main
          else main ++ ["  - _" ++ card.notes ++ "_"]
        withNotes ++ ["", "---", ""]) []
  String.intercalate "\n" (base ++ blocks)

/-! ## Publisher (`src/index.js`, lines 358–436)

A destination channel is its list of messages; `channel.send` appends a fresh
message whose id is chosen by the environment (`freshId`); `msg.edit`
replaces the content of the message with that id. -/

/-- A message of an output channel. -/
structure ChanMsg where
  id : String
  content : String
deriving DecidableEq

/-- `textChannel.messages.fetch(id)`: succeeds exactly when the id is present. -/
def fetchMessage (chan : List ChanMsg) (msgId : String) : Option ChanMsg :=
  chan.find? (fun m => m.id == msgId)

/-- `textChannel.send(text)`: a new message with an environment-chosen fresh id. -/
def sendMessage (chan : List ChanMsg) (freshId text : String) : ChanMsg × List ChanMsg :=
  let m : ChanMsg := ⟨freshId, text⟩
  (m, chan ++ [m])

/-- `msg.edit(newText)` on the message with the given id. -/
def editMessage (chan : List ChanMsg) (msgId newText : String) : List ChanMsg :=
  chan.map (fun m => if m.id == msgId then ⟨m.id, newText⟩ else m)

/-- Result of `ensureBotMessage`: the resolved message, the channel state
afterwards, and whether `channel.send` was called. -/
structure EnsureResult where
  msg : ChanMsg
  chan : List ChanMsg
  created : Bool
deriving DecidableEq

/-- `ensureBotMessage` of `src/index.js`: reuse the configured message id when
it is non-blank and fetchable, otherwise create a placeholder message. -/
def ensureBotMessage (chan : List ChanMsg) (existingMessageId freshId : String) :
    EnsureResult :=
  if strTrim existingMessageId == "" then
    let r := sendMessage chan freshId "Initializing..."
    ⟨r.1, r.2, true⟩
  else
    match fetchMessage chan (strTrim existingMessageId) with
    | some m => ⟨m, chan, false⟩
    | none =>
      let r := sendMessage chan freshId "Initializing..."
      ⟨r.1, r.2, true⟩

/-- The two output destinations owned by the Publisher. -/
structure PublishState where
  dashboard : List ChanMsg
  recruitment : List ChanMsg
deriving DecidableEq

/-- Observable outcome of one `updateAllOutputs` run. -/
structure RunResult where
  state : PublishState
  dashText : String
  recText : String
  dashCreated : Bool
  recCreated : Bool
deriving DecidableEq

/-- `updateAllOutputs` of `src/index.js` over resolved summaries: render both
artifacts, resolve each destination message via `ensureBotMessage`, and edit
it in place. -/
def updateAllOutputs (summaries : List TeamSummary) (weekOf : String)
    (fmtWhen : Int → String) (dashboardMessageId recruitmentMessageId : String)
    (freshDash freshRec : String) (st : PublishState) : RunResult :=
  let dashText := renderDashboardAnsi weekOf fmtWhen summaries
  let recText := renderRecruitmentPost summaries
  let rd := ensureBotMessage st.dashboard dashboardMessageId freshDash
  let dash2 := editMessage rd.chan rd.msg.id dashText
  let rr := ensureBotMessage st.recruitment recruitmentMessageId freshRec
  let rec2 := editMessage rr.chan rr.msg.id recText
  ⟨⟨dash2, rec2⟩, dashText, recText, rd.created, rr.created⟩

/-! ## Theorems -/

/-- Sum of the four canonical buckets of a `Counts` record. -/
def countsTotal (c : Counts) : Nat :=
  c.tanks + c.healers + c.melee + c.ranged

lemma Index.countStep_healers_split (specs : List String) (c : Counts) (s : SignUp)
    (h : c.healers = c.mh + c.rh) :
    (Index.countStep specs c s).healers =
      (Index.countStep specs c s).mh + (Index.countStep specs c s).rh := by
  simp only [Index.countStep]
  split_ifs <;> (try simp) <;> omega

lemma Index.foldl_healers_split (specs : List String) :
    ∀ (l : List SignUp) (c : Counts), c.healers = c.mh + c.rh →
      (l.foldl (Index.countStep specs) c).healers =
        (l.foldl (Index.countStep specs) c).mh + (l.foldl (Index.countStep specs) c).rh := by
  intro l
  induction l with
  | nil => intro c h; simpa using h
  | cons s t ih =>
    intro c h
    rw [List.foldl_cons]
    exact ih _ (Index.countStep_healers_split specs c s h)

/-- C6: for every signup record set, the healer count equals the sum of the
melee-healer and ranged-healer sub-buckets in `countRoles` of `src/index.js`. -/
theorem countRoles_healers_eq_mh_add_rh (specs : List String) (ev : EventJson) :
    (Index.countRoles specs ev).healers =
      (Index.countRoles specs ev).mh + (Index.countRoles specs ev).rh := by
  unfold Index.countRoles
  exact Index.foldl_healers_split specs _ _ rfl

lemma indexCountStep_total_le (specs : List String) (c : Counts) (s : SignUp) :
    countsTotal (Index.countStep specs c s) ≤ countsTotal c + 1 := by
  simp only [countsTotal, Index.countStep]
  split_ifs <;> (try simp) <;> omega

lemma part003CountStep_total_le (specs : List String) (c : Counts) (s : SignUp) :
    countsTotal (Part003.countStep specs c s) ≤ countsTotal c + 1 := by
  simp only [countsTotal, Part003.countStep]
  split_ifs <;> (try simp) <;> omega

lemma foldl_total_le (step : Counts → SignUp → Counts)
    (hstep : ∀ c s, countsTotal (step c s) ≤ countsTotal c + 1) :
    ∀ (l : List SignUp) (c : Counts),
      countsTotal (l.foldl step c) ≤ countsTotal c + l.length := by
  intro l
  induction l with
  | nil => intro c; simp
  | cons s t ih =>
    intro c
    rw [List.foldl_cons]
    calc countsTotal (t.foldl step (step c s)) ≤ countsTotal (step c s) + t.length := ih _
      _ ≤ countsTotal c + 1 + t.length := by have := hstep c s; omega
      _ = countsTotal c + (s :: t).length := by simp; omega

/-- C7: every entry lands in at most one canonical bucket, so the bucket sums
of both `countRoles` revisions are bounded by the number of raw entries. -/
theorem countRoles_partition_bound (specs : List String) (ev : EventJson) :
    (Index.countRoles specs ev).tanks + (Index.countRoles specs ev).healers +
        (Index.countRoles specs ev).melee + (Index.countRoles specs ev).ranged ≤
      (ev.signUps.getD []).length ∧
    (Part003.countRoles specs ev).tanks + (Part003.countRoles specs ev).healers +
        (Part003.countRoles specs ev).melee + (Part003.countRoles specs ev).ranged ≤
      (ev.signUps.getD []).length := by
  constructor
  · have h := foldl_total_le (Index.countStep specs) (indexCountStep_total_le specs)
      ((ev.signUps.getD []).filter Index.keepsSignUp) ⟨0, 0, 0, 0, 0, 0⟩
    have hf : ((ev.signUps.getD []).filter Index.keepsSignUp).length ≤
        (ev.signUps.getD []).length := List.length_filter_le _ _
    simp only [Index.countRoles]
    simp only [countsTotal] at h
    omega
  · have h := foldl_total_le (Part003.countStep specs) (part003CountStep_total_le specs)
      (ev.signUps.getD []) ⟨0, 0, 0, 0, 0, 0⟩
    simp only [Part003.countRoles]
    simp only [countsTotal] at h
    omega

/-- C8: the gap computation of the renderers: `dpsTarget`, `need`, `dpsNeed`,
all never negative (with the spec scenario `raidSize 20, have 10 → need 4`). -/
theorem gap_computation_nonneg (raidSize tanksTarget healsTarget : Int) (c : Counts) :
    dpsTargetCalc raidSize tanksTarget healsTarget = max 0 (raidSize - tanksTarget - healsTarget)
    ∧ (∀ hav target : Int, needCount hav target = max 0 (target - hav) ∧ 0 ≤ needCount hav target)
    ∧ needCount ((c.melee : Int) + (c.ranged : Int)) (dpsTargetCalc raidSize tanksTarget healsTarget)
        = max 0 (dpsTargetCalc raidSize tanksTarget healsTarget - ((c.melee : Int) + (c.ranged : Int)))
    ∧ 0 ≤ needCount ((c.melee : Int) + (c.ranged : Int)) (dpsTargetCalc raidSize tanksTarget healsTarget)
    ∧ needCount 10 (dpsTargetCalc 20 2 4) = 4 := by
  refine ⟨?_, fun hav target => ⟨rfl, ?_⟩, rfl, ?_, ?_⟩ <;>
    · simp only [needCount, dpsTargetCalc]
      omega

/-- C2 counterexample: in `src/index.js` an entry whose status is the
unrecognized value `"confirmed"` is discarded, not treated as participating —
its `"Tanks"` role is never counted. -/
theorem index_discards_unrecognized_status :
    Index.countRoles CONFIG_meleeHealerSpecs
      (mkEv [⟨some "Tanks", none, some "confirmed", none⟩]) = ⟨0, 0, 0, 0, 0, 0⟩ := by
  decide

/-- C2 amended: `isIncludedStatus` of part_002 discards exactly the recognized
non-primary set (absent and unrecognized values participate); `countRoles` of
`src/index.js` instead keeps an entry only when its status — defaulting to
`"primary"` when absent or empty — lower-cases to exactly `"primary"`. -/
theorem status_rule_by_revision :
    (∀ st : Option String,
      Part002.isIncludedStatus st = !(Part002.excludedStatuses.contains (normalizeField st)))
    ∧ (∀ st : Option String,
        (Index.countRoles CONFIG_meleeHealerSpecs (mkEv [⟨some "Tanks", none, st, none⟩])).tanks
          = if strToLower (jsOr st "primary") == "primary" then 1 else 0)
    ∧ (Part002.countRoles CONFIG_meleeHealerSpecs
        (mkEv [⟨some "Tanks", none, some "confirmed", none⟩])).tanks = 1 := by
  refine ⟨fun st => ?_, fun st => ?_, by decide⟩
  · simp only [Part002.isIncludedStatus]
    generalize normalizeField st = s
    by_cases h : s = ""
    · subst h; decide
    · rw [if_neg (by simpa using h)]
      cases hc : Part002.excludedStatuses.contains s <;> simp [hc]
  · have hk : Index.keepsSignUp ⟨some "Tanks", none, st, none⟩
        = (strToLower (jsOr st "primary") == "primary") := by
      simp [Index.keepsSignUp, jsOr]
      exact fun _ => by decide
    have hTanks : jsOr (some "Tanks") "" = "Tanks" := rfl
    cases h : strToLower (jsOr st "primary") == "primary" <;>
      simp [Index.countRoles, mkEv, List.filter, hk, h, Index.countStep, hTanks]

/-- C3 counterexample: in `src/index.js` an entry with a blank role field and
class field `"Melee"` is not classified at all — there is no fallback to the
class field, so the claimed melee-dps bucket stays empty. -/
theorem index_no_class_fallback :
    Index.countRoles CONFIG_meleeHealerSpecs
      (mkEv [⟨some "", some "Melee", none, none⟩]) = ⟨0, 0, 0, 0, 0, 0⟩ := by
  decide

lemma jsOrOpt_self (a : Option String) : jsOrOpt a a = a := by
  cases a with
  | none => rfl
  | some x => simp [jsOrOpt]

/-- C3 amended: the fallback-to-class-field rule holds in `countRoles` of
part_003 (a blank role field classifies the entry exactly as if the role field
were the class field, and the scenario entry lands in melee-dps there), while
`countRoles` of `src/index.js` reads only the role field and drops the entry. -/
theorem blank_role_falls_back_to_class (specs : List String) (s : SignUp)
    (h : s.roleName = none ∨ s.roleName = some "") :
    Part003.countRoles specs (mkEv [s]) =
      Part003.countRoles specs (mkEv [{ s with roleName := s.className }])
    ∧ (Part003.countRoles CONFIG_meleeHealerSpecs
        (mkEv [⟨some "", some "Melee", none, none⟩])).melee = 1
    ∧ (Index.countRoles CONFIG_meleeHealerSpecs
        (mkEv [⟨some "", some "Melee", none, none⟩])).melee = 0 := by
  refine ⟨?_, by decide, by decide⟩
  have hb : jsOrOpt s.roleName s.className = jsOrOpt s.className s.className := by
    rcases h with h | h <;> rw [h, jsOrOpt_self] <;> simp [jsOrOpt]
  simp only [Part003.countRoles, mkEv, List.foldl_cons, List.foldl_nil, Option.getD_some]
  simp only [Part003.countStep, hb]

/-- C3 witness: the fallback equation applied to the scenario entry itself. -/
theorem blank_role_falls_back_to_class_witness :
    Part003.countRoles CONFIG_meleeHealerSpecs (mkEv [⟨some "", some "Melee", none, none⟩]) =
      Part003.countRoles CONFIG_meleeHealerSpecs (mkEv [⟨some "Melee", some "Melee", none, none⟩])
    ∧ (Part003.countRoles CONFIG_meleeHealerSpecs
        (mkEv [⟨some "", some "Melee", none, none⟩])).melee = 1
    ∧ (Index.countRoles CONFIG_meleeHealerSpecs
        (mkEv [⟨some "", some "Melee", none, none⟩])).melee = 0 :=
  blank_role_falls_back_to_class CONFIG_meleeHealerSpecs
    ⟨some "", some "Melee", none, none⟩ (Or.inr rfl)

/-- C4 counterexample: `src/index.js` does not do substring matching (a lower
case `"tank"` role is dropped entirely), and part_003 tests melee before
ranged (a key containing both lands in melee-dps, not ranged-dps as claimed). -/
theorem priority_matching_cex :
    Index.countRoles CONFIG_meleeHealerSpecs
      (mkEv [⟨some "tank", none, none, none⟩]) = ⟨0, 0, 0, 0, 0, 0⟩
    ∧ (Part003.countRoles CONFIG_meleeHealerSpecs
        (mkEv [⟨some "melee or ranged", none, none, none⟩])).ranged = 0
    ∧ (Part003.countRoles CONFIG_meleeHealerSpecs
        (mkEv [⟨some "melee or ranged", none, none, none⟩])).melee = 1 := by
  refine ⟨by decide, by decide, by decide⟩

/-- C4 amended: the claimed substring cascade (tank, heal, ranged with short
tokens, melee with short tokens, generic dps to ranged) is exactly the order
of `countRoles` in part_002; `src/index.js` instead matches the role name
verbatim against `"Tanks"`/`"Healers"`/`"Melee"`/`"Ranged"`, and part_003
tests melee before ranged. -/
theorem priority_matching_by_revision (key : String) :
    Part002.countRoles CONFIG_meleeHealerSpecs (mkEv [⟨some key, none, none, none⟩]) =
      (if strIncludes (normalizeField (some key)) "tank" then ⟨1, 0, 0, 0, 0, 0⟩
       else if strIncludes (normalizeField (some key)) "heal" then ⟨0, 1, 0, 0, 0, 1⟩
       else if strIncludes (normalizeField (some key)) "ranged" ||
           strIncludes (normalizeField (some key)) "rdps" ||
           strIncludes (normalizeField (some key)) "range dps" ||
           normalizeField (some key) == "r" then ⟨0, 0, 0, 1, 0, 0⟩
       else if strIncludes (normalizeField (some key)) "melee" ||
           strIncludes (normalizeField (some key)) "mdps" ||
           strIncludes (normalizeField (some key)) "melee dps" ||
           normalizeField (some key) == "m" then ⟨0, 0, 1, 0, 0, 0⟩
       else if normalizeField (some key) == "dps" ||
           strIncludes (normalizeField (some key)) "damage" ||
           strIncludes (normalizeField (some key)) "dd" then ⟨0, 0, 0, 1, 0, 0⟩
       else ⟨0, 0, 0, 0, 0, 0⟩)
    ∧ (Index.countRoles CONFIG_meleeHealerSpecs
        (mkEv [⟨some "Tanks", none, none, none⟩])).tanks = 1
    ∧ (Index.countRoles CONFIG_meleeHealerSpecs
        (mkEv [⟨some "tank", none, none, none⟩])).tanks = 0
    ∧ (Part002.countRoles CONFIG_meleeHealerSpecs
        (mkEv [⟨some "melee or ranged", none, none, none⟩])).ranged = 1 := by
  refine ⟨rfl, by decide, by decide, by decide⟩

/-- C5 counterexample: the ignore comparison of `src/index.js` is verbatim,
not normalized — a class field of `" bench "` is not discarded and its
`"Tanks"` role is counted. -/
theorem index_ignore_set_not_normalized :
    (Index.countRoles CONFIG_meleeHealerSpecs
      (mkEv [⟨some "Tanks", some " bench ", none, none⟩])).tanks = 1 := by
  decide

/-- C5 amended: part_003 discards an entry whose class field normalizes into
the ignore set regardless of its other fields; `src/index.js` discards only
the verbatim capitalized spellings (so exactly `"Bench"` contributes to no
bucket there, while `" bench "` slips through). -/
theorem ignored_bucket_discard (specs : List String) (s : SignUp) (rest : List SignUp)
    (h : Part003.ignoreClassSet.contains (normalizeField s.className) = true) :
    Part003.countRoles specs (mkEv (s :: rest)) = Part003.countRoles specs (mkEv rest)
    ∧ Index.countRoles CONFIG_meleeHealerSpecs
        (mkEv [⟨some "Tanks", some "Bench", none, some "Holy"⟩]) = ⟨0, 0, 0, 0, 0, 0⟩
    ∧ (Index.countRoles CONFIG_meleeHealerSpecs
        (mkEv [⟨some "Tanks", some " bench ", none, none⟩])).tanks = 1 := by
  refine ⟨?_, by decide, by decide⟩
  simp only [Part003.countRoles, mkEv, List.foldl_cons, Option.getD_some]
  congr 1
  simp only [Part003.countStep, h]
  rfl

/-- C5 witness: a `"BENCH"` entry with tank role, primary status and healer
spec is discarded by part_003 no matter those fields. -/
theorem ignored_bucket_discard_witness :
    Part003.countRoles CONFIG_meleeHealerSpecs
        (mkEv [⟨some "Tanks", some "BENCH", some "primary", some "Holy"⟩]) =
      Part003.countRoles CONFIG_meleeHealerSpecs (mkEv [])
    ∧ Index.countRoles CONFIG_meleeHealerSpecs
        (mkEv [⟨some "Tanks", some "Bench", none, some "Holy"⟩]) = ⟨0, 0, 0, 0, 0, 0⟩
    ∧ (Index.countRoles CONFIG_meleeHealerSpecs
        (mkEv [⟨some "Tanks", some " bench ", none, none⟩])).tanks = 1 :=
  ignored_bucket_discard CONFIG_meleeHealerSpecs
    ⟨some "Tanks", some "BENCH", some "primary", some "Holy"⟩ [] (by decide)

lemma eventIdAt_isSome (cs : List Char) :
    (eventIdAt cs).isSome =
      (((cs.take eventLitChars.length).map Char.toLower == eventLitChars) &&
        decide (10 ≤ ((cs.drop eventLitChars.length).takeWhile Char.isDigit).length)) := by
  simp only [eventIdAt]
  cases hlit : (cs.take eventLitChars.length).map Char.toLower == eventLitChars
  · simp [hlit]
  · simp only [hlit, if_true, Bool.true_and]
    have hlen : (((cs.drop eventLitChars.length).takeWhile Char.isDigit).take 30).length =
        min 30 ((cs.drop eventLitChars.length).takeWhile Char.isDigit).length :=
      List.length_take 30 _
    split <;> rename_i hds
    · rw [hlen] at hds
      have hgt : 10 ≤ ((cs.drop eventLitChars.length).takeWhile Char.isDigit).length := by
        omega
      simp [hgt]
    · rw [hlen] at hds
      have hgt : ¬ 10 ≤ ((cs.drop eventLitChars.length).takeWhile Char.isDigit).length := by
        omega
      simp [hgt]

lemma findEventId_isSome (cs : List Char) :
    (findEventId cs).isSome = specContainsEventRef cs := by
  induction cs with
  | nil => rfl
  | cons c rest ih =>
    have hhead := eventIdAt_isSome (c :: rest)
    rw [findEventId, specContainsEventRef]
    cases h : eventIdAt (c :: rest) with
    | none =>
      rw [h] at hhead
      simp only [Option.isSome_none] at hhead
      rw [← hhead, Bool.false_or]
      exact ih
    | some v =>
      rw [h] at hhead
      simp only [Option.isSome_some] at hhead
      rw [← hhead, Bool.true_or]
      rfl

lemma all_takeWhile_self (p : Char → Bool) (l : List Char) :
    (l.takeWhile p).all p = true := by
  induction l with
  | nil => rfl
  | cons c rest ih =>
    rw [List.takeWhile_cons]
    split <;> rename_i hc
    · simp [hc, ih]
    · rfl

lemma findEventId_wellFormed (cs : List Char) :
    eventIdWellFormed (findEventId cs) = true := by
  induction cs with
  | nil => rfl
  | cons c rest ih =>
    rw [findEventId]
    cases h : eventIdAt (c :: rest) with
    | none => simpa using ih
    | some v =>
      simp only []
      simp only [eventIdAt] at h
      split at h
      · split at h <;> rename_i hds
        · cases h
          have hlen : ((((c :: rest).drop eventLitChars.length).takeWhile Char.isDigit).take
              30).length =
              min 30 (((c :: rest).drop eventLitChars.length).takeWhile Char.isDigit).length :=
            List.length_take 30 _
          simp only [eventIdWellFormed, String.length, Bool.and_eq_true, decide_eq_true_eq,
            List.all_eq_true]
          refine ⟨⟨by omega, by omega⟩, fun a ha => ?_⟩
          exact List.mem_takeWhile_imp (List.take_subset 30 _ ha)
        · cases h
      · cases h

/-- C10: the event-id extraction of `src/index.js` succeeds exactly when the
text contains `raid-helper.dev/event/` (case-insensitively) followed by at
least 10 digits; any returned id has 10 to 30 digit characters, and a message
whose only reference carries a 9-digit id yields no match for the scan. -/
theorem extract_event_id_digit_bounds (t : String) :
    (extractEventIdFromText (some t)).isSome = specContainsEventRef t.data
    ∧ eventIdWellFormed (extractEventIdFromText (some t)) = true
    ∧ extractEventIdFromMessage
        ⟨"m1", some "https://raid-helper.dev/event/123456789", none, none⟩ = none := by
  refine ⟨?_, ?_, by decide⟩
  · simp only [extractEventIdFromText]
    cases ht : t == ""
    · simp [findEventId_isSome]
    · have : t = "" := by simpa using ht
      subst this
      rfl
  · simp only [extractEventIdFromText]
    cases ht : t == ""
    · simp [ht, findEventId_wellFormed]
    · simp [ht, eventIdWellFormed]

lemma fetchRecentMessagesGo_bounds (fetchPage : Nat → Option String → List Message)
    (hcap : ∀ l b, (fetchPage l b).length ≤ l) :
    ∀ (n total : Nat) (acc : List Message) (before : Option String),
      total - acc.length ≤ n → acc.length ≤ total →
      (fetchRecentMessagesGo fetchPage total acc before).1.length ≤ total ∧
        (fetchRecentMessagesGo fetchPage total acc before).2 ≤
          (total - acc.length + 99) / 100 := by
  intro n
  induction n with
  | zero =>
    intro total acc before hn hacc
    rw [fetchRecentMessagesGo, dif_neg (by omega)]
    exact ⟨hacc, by omega⟩
  | succ n ih =>
    intro total acc before hn hacc
    by_cases h : acc.length < total
    · rw [fetchRecentMessagesGo, dif_pos h]
      simp only []
      by_cases hb : fetchPage (min 100 (total - acc.length)) before = []
      · rw [dif_pos hb]
        exact ⟨hacc, by omega⟩
      · rw [dif_neg hb]
        have hlen := hcap (min 100 (total - acc.length)) before
        by_cases hs : (fetchPage (min 100 (total - acc.length)) before).length <
            min 100 (total - acc.length)
        · rw [dif_pos hs]
          refine ⟨?_, by omega⟩
          simp only [List.length_append]
          omega
        · rw [dif_neg hs]
          have hblen : (fetchPage (min 100 (total - acc.length)) before).length =
              min 100 (total - acc.length) := by omega
          have hacc2 : (acc ++ fetchPage (min 100 (total - acc.length)) before).length ≤
              total := by
            simp only [List.length_append]
            omega
          have hn2 : total -
              (acc ++ fetchPage (min 100 (total - acc.length)) before).length ≤ n := by
            simp only [List.length_append]
            omega
          obtain ⟨ih1, ih2⟩ := ih total
            (acc ++ fetchPage (min 100 (total - acc.length)) before)
            (((fetchPage (min 100 (total - acc.length)) before).getLast?).map Message.id)
            hn2 hacc2
          refine ⟨ih1, ?_⟩
          simp only [List.length_append, hblen] at ih2
          omega
    · rw [fetchRecentMessagesGo, dif_neg h]
      exact ⟨hacc, by omega⟩

/-- C9: for every page-respecting history capability, `fetchRecentMessages`
accumulates at most `N` messages using at most `ceil(N/100)` page fetches,
issues exactly one fetch when the first page comes back short, and
`findLatestRaidHelperEventId` is the first extracted reference of such a
window of at most `LOOKBACK_TOTAL` messages. -/
theorem scan_window_bounds (fetchPage : Nat → Option String → List Message) (N : Nat)
    (hcap : ∀ l b, (fetchPage l b).length ≤ l) :
    (fetchRecentMessages fetchPage N).1.length ≤ N
    ∧ (fetchRecentMessages fetchPage N).2 ≤ (N + 99) / 100
    ∧ ((fetchPage (min 100 N) none).length < min 100 N → 0 < N →
        (fetchRecentMessages fetchPage N).2 = 1)
    ∧ findLatestRaidHelperEventId fetchPage =
        ((fetchRecentMessages fetchPage LOOKBACK_TOTAL).1).findSome? extractEventIdFromMessage
    ∧ (fetchRecentMessages fetchPage LOOKBACK_TOTAL).1.length ≤ LOOKBACK_TOTAL := by
  have hmain := fetchRecentMessagesGo_bounds fetchPage hcap N N [] none (by simp) (by simp)
  have hlook := fetchRecentMessagesGo_bounds fetchPage hcap LOOKBACK_TOTAL LOOKBACK_TOTAL
    [] none (by simp) (by simp)
  refine ⟨hmain.1, by simpa using hmain.2, ?_, rfl, hlook.1⟩
  intro hshort hpos
  unfold fetchRecentMessages
  rw [fetchRecentMessagesGo, dif_pos (by simpa using hpos)]
  simp only [List.length_nil, Nat.sub_zero]
  by_cases hb : fetchPage (min 100 N) none = []
  · rw [dif_pos hb]
  · rw [dif_neg hb, dif_pos hshort]

/-- C9 witness: the empty-channel capability at `N = 250`. -/
theorem scan_window_bounds_witness :
    (fetchRecentMessages (fun _ _ => []) 250).1.length ≤ 250
    ∧ (fetchRecentMessages (fun _ _ => []) 250).2 ≤ (250 + 99) / 100
    ∧ (((fun (_ : Nat) (_ : Option String) => ([] : List Message)) (min 100 250) none).length
          < min 100 250 → 0 < 250 → (fetchRecentMessages (fun _ _ => []) 250).2 = 1)
    ∧ findLatestRaidHelperEventId (fun _ _ => []) =
        ((fetchRecentMessages (fun _ _ => []) LOOKBACK_TOTAL).1).findSome?
          extractEventIdFromMessage
    ∧ (fetchRecentMessages (fun _ _ => []) LOOKBACK_TOTAL).1.length ≤ LOOKBACK_TOTAL :=
  scan_window_bounds (fun _ _ => []) 250 (fun l b => by simp)

lemma ensureBotMessage_reuses (chan : List ChanMsg) (msgId fresh : String) (m : ChanMsg)
    (h1 : strTrim msgId ≠ "") (h2 : fetchMessage chan (strTrim msgId) = some m) :
    ensureBotMessage chan msgId fresh = ⟨m, chan, false⟩ := by
  unfold ensureBotMessage
  rw [if_neg (by simp [h1]), h2]

lemma editMessage_length (chan : List ChanMsg) (i t : String) :
    (editMessage chan i t).length = chan.length := by
  simp [editMessage]

lemma fetchMessage_editMessage (chan : List ChanMsg) (i t j : String) :
    fetchMessage (editMessage chan i t) j =
      (fetchMessage chan j).map (fun m => if m.id == i then ⟨m.id, t⟩ else m) := by
  unfold fetchMessage editMessage
  rw [List.find?_map]
  have hp : ((fun m => m.id == j) ∘ fun m : ChanMsg =>
      if m.id == i then (⟨m.id, t⟩ : ChanMsg) else m) = fun m : ChanMsg => m.id == j := by
    funext m
    by_cases h : m.id == i <;> simp [h, Function.comp]
  rw [hp]

/-- C1: with a working message id known for both destinations, two
`updateAllOutputs` runs over the same source data render identical artifact
text, never call `channel.send` (no creation in either run), leave the number
of destination messages unchanged, and leave the pinned message holding the
rendered artifact. -/
theorem publisher_idempotent (summaries : List TeamSummary) (weekOf : String)
    (fmtWhen : Int → String)
    (dashboardMessageId recruitmentMessageId fD1 fR1 fD2 fR2 : String)
    (st : PublishState) (dm rm : ChanMsg)
    (hd : strTrim dashboardMessageId ≠ "")
    (hdm : fetchMessage st.dashboard (strTrim dashboardMessageId) = some dm)
    (hr : strTrim recruitmentMessageId ≠ "")
    (hrm : fetchMessage st.recruitment (strTrim recruitmentMessageId) = some rm) :
    let r1 := updateAllOutputs summaries weekOf fmtWhen dashboardMessageId
      recruitmentMessageId fD1 fR1 st
    let r2 := updateAllOutputs summaries weekOf fmtWhen dashboardMessageId
      recruitmentMessageId fD2 fR2 r1.state
    r2.dashText = r1.dashText ∧ r2.recText = r1.recText
    ∧ r1.dashCreated = false ∧ r1.recCreated = false
    ∧ r2.dashCreated = false ∧ r2.recCreated = false
    ∧ r2.state.dashboard.length = st.dashboard.length
    ∧ r2.state.recruitment.length = st.recruitment.length
    ∧ fetchMessage r2.state.dashboard (strTrim dashboardMessageId) =
        some ⟨strTrim dashboardMessageId, r1.dashText⟩
    ∧ fetchMessage r2.state.recruitment (strTrim recruitmentMessageId) =
        some ⟨strTrim recruitmentMessageId, r1.recText⟩ := by
  have hdid : dm.id = strTrim dashboardMessageId := by
    have := List.find?_some hdm
    simpa using this
  have hrid : rm.id = strTrim recruitmentMessageId := by
    have := List.find?_some hrm
    simpa using this
  have e1 := ensureBotMessage_reuses st.dashboard dashboardMessageId fD1 dm hd hdm
  have e2 := ensureBotMessage_reuses st.recruitment recruitmentMessageId fR1 rm hr hrm
  have hr1 : updateAllOutputs summaries weekOf fmtWhen dashboardMessageId
      recruitmentMessageId fD1 fR1 st =
      ⟨⟨editMessage st.dashboard dm.id (renderDashboardAnsi weekOf fmtWhen summaries),
        editMessage st.recruitment rm.id (renderRecruitmentPost summaries)⟩,
       renderDashboardAnsi weekOf fmtWhen summaries, renderRecruitmentPost summaries,
       false, false⟩ := by
    simp only [updateAllOutputs, e1, e2]
  have hdm2 : fetchMessage
      (editMessage st.dashboard dm.id (renderDashboardAnsi weekOf fmtWhen summaries))
      (strTrim dashboardMessageId) =
      some ⟨dm.id, renderDashboardAnsi weekOf fmtWhen summaries⟩ := by
    rw [fetchMessage_editMessage, hdm]
    simp
  have hrm2 : fetchMessage
      (editMessage st.recruitment rm.id (renderRecruitmentPost summaries))
      (strTrim recruitmentMessageId) =
      some ⟨rm.id, renderRecruitmentPost summaries⟩ := by
    rw [fetchMessage_editMessage, hrm]
    simp
  have e3 := ensureBotMessage_reuses
    (editMessage st.dashboard dm.id (renderDashboardAnsi weekOf fmtWhen summaries))
    dashboardMessageId fD2 ⟨dm.id, renderDashboardAnsi weekOf fmtWhen summaries⟩ hd hdm2
  have e4 := ensureBotMessage_reuses
    (editMessage st.recruitment rm.id (renderRecruitmentPost summaries))
    recruitmentMessageId fR2 ⟨rm.id, renderRecruitmentPost summaries⟩ hr hrm2
  have hr2 : updateAllOutputs summaries weekOf fmtWhen dashboardMessageId
      recruitmentMessageId fD2 fR2
      ⟨editMessage st.dashboard dm.id (renderDashboardAnsi weekOf fmtWhen summaries),
       editMessage st.recruitment rm.id (renderRecruitmentPost summaries)⟩ =
      ⟨⟨editMessage
          (editMessage st.dashboard dm.id (renderDashboardAnsi weekOf fmtWhen summaries))
          dm.id (renderDashboardAnsi weekOf fmtWhen summaries),
        editMessage
          (editMessage st.recruitment rm.id (renderRecruitmentPost summaries))
          rm.id (renderRecruitmentPost summaries)⟩,
       renderDashboardAnsi weekOf fmtWhen summaries, renderRecruitmentPost summaries,
       false, false⟩ := by
    simp only [updateAllOutputs, e3, e4]
  simp only [hr1, hr2]
  refine ⟨trivial, trivial, trivial, trivial, trivial, trivial, ?_, ?_, ?_, ?_⟩
  · rw [editMessage_length, editMessage_length]
  · rw [editMessage_length, editMessage_length]
  · rw [fetchMessage_editMessage, hdm2, hdid]
    simp
  · rw [fetchMessage_editMessage, hrm2, hrid]
    simp

/-- C1 witness: a concrete pair of runs over two one-message destinations with
working ids `"d1"` and `"r1"`. -/
theorem publisher_idempotent_witness :
    let r1 := updateAllOutputs [] "W" (fun _ => "") "d1" "r1" "f1" "f2"
      ⟨[⟨"d1", "x"⟩], [⟨"r1", "y"⟩]⟩
    let r2 := updateAllOutputs [] "W" (fun _ => "") "d1" "r1" "f3" "f4" r1.state
    r2.dashText = r1.dashText ∧ r2.recText = r1.recText
    ∧ r1.dashCreated = false ∧ r1.recCreated = false
    ∧ r2.dashCreated = false ∧ r2.recCreated = false
    ∧ r2.state.dashboard.length = ([⟨"d1", "x"⟩] : List ChanMsg).length
    ∧ r2.state.recruitment.length = ([⟨"r1", "y"⟩] : List ChanMsg).length
    ∧ fetchMessage r2.state.dashboard (strTrim "d1") = some ⟨strTrim "d1", r1.dashText⟩
    ∧ fetchMessage r2.state.recruitment (strTrim "r1") = some ⟨strTrim "r1", r1.recText⟩ :=
  publisher_idempotent [] "W" (fun _ => "") "d1" "r1" "f1" "f2" "f3" "f4"
    ⟨[⟨"d1", "x"⟩], [⟨"r1", "y"⟩]⟩ ⟨"d1", "x"⟩ ⟨"r1", "y"⟩
    (by decide) (by decide) (by decide) (by decide)
